import Mathlib

/-
Verification of the ML inference gateway (src/gateway/app.py).

The gateway's request pipeline is embedded shallowly: the pure computations
(top-5 ranking, rounding, success-rate formula, pixel scaling) are translated
directly from the source; the I/O boundaries (PIL decode/resize, the HTTP call
to the model server) are modelled as explicit outcome values fed to the
handlers, so every handler is a total function from its inputs and the metrics
state to a response and a new metrics state.

Numeric conventions: Python floats are modelled as `ℚ` (the claims under test
are order-theoretic and exact-arithmetic properties); `round(x, 2)` is modelled
as round-half-even at two decimals, matching Python's `round`.
-/

namespace Gateway

open List

/-! ### Rounding — model of Python `round(x, 2)` -/

/-- Round to the nearest integer, ties to even (Python's `round` convention). -/
def roundHalfEven (q : ℚ) : ℤ :=
  if Int.fract q < 1/2 then ⌊q⌋
  else if 1/2 < Int.fract q then ⌊q⌋ + 1
  else if Even ⌊q⌋ then ⌊q⌋ else ⌊q⌋ + 1

/-- Model of Python `round(q, 2)`. -/
def round2 (q : ℚ) : ℚ := (roundHalfEven (q * 100) : ℚ) / 100

/-! ### Ranker — app.py lines 163-172

`np.argsort(pred_array)[-5:][::-1]` followed by building the result records.
`np.argsort` is modelled as the stable ascending sort of the index list
`[0, …, n-1]` by score (equal scores keep ascending index order: this is the
deterministic refinement of numpy's sort, and is what numpy's insertion-sort
path produces); `[-5:]` is `drop (n - 5)`, `[::-1]` is `reverse`. -/

/-- `pred_array[i]` (out-of-range reads default to 0; all indices used by the
ranker are in range). -/
def scoreAt (v : List ℚ) (i : ℕ) : ℚ := v.getD i 0

/-- The ascending order `np.argsort` sorts indices by: lower score first, equal
scores by lower index first (stable). -/
def rankRel (v : List ℚ) (i j : ℕ) : Prop :=
  scoreAt v i < scoreAt v j ∨ (scoreAt v i = scoreAt v j ∧ i ≤ j)

instance (v : List ℚ) : DecidableRel (rankRel v) := fun i j => by
  unfold rankRel
  infer_instance

instance (v : List ℚ) : IsTotal ℕ (rankRel v) := ⟨by
  intro i j
  rcases lt_trichotomy (scoreAt v i) (scoreAt v j) with h | h | h
  · exact Or.inl (Or.inl h)
  · rcases Nat.le_total i j with hij | hij
    · exact Or.inl (Or.inr ⟨h, hij⟩)
    · exact Or.inr (Or.inr ⟨h.symm, hij⟩)
  · exact Or.inr (Or.inl h)⟩

instance (v : List ℚ) : IsTrans ℕ (rankRel v) := ⟨by
  intro i j k hij hjk
  rcases hij with h1 | ⟨e1, le1⟩ <;> rcases hjk with h2 | ⟨e2, le2⟩
  · exact Or.inl (h1.trans h2)
  · exact Or.inl (lt_of_lt_of_le h1 e2.le)
  · exact Or.inl (lt_of_le_of_lt e1.le h2)
  · exact Or.inr ⟨e1.trans e2, le1.trans le2⟩⟩

/-- `np.argsort(v)`: indices of `v` in stable ascending score order. -/
def argsortAsc (v : List ℚ) : List ℕ :=
  List.insertionSort (rankRel v) (List.range v.length)

/-- `np.argsort(v)[-5:][::-1]`. -/
def top5Indices (v : List ℚ) : List ℕ :=
  ((argsortAsc v).drop (v.length - 5)).reverse

/-- One entry of the response's `predictions` array (app.py lines 167-172). -/
structure Prediction where
  class_id : ℕ
  probability : ℚ
  confidence_percent : ℚ
deriving DecidableEq, Repr

/-- The ranked top-5 result built from a raw prediction vector
(app.py lines 163-172). -/
def topK (v : List ℚ) : List Prediction :=
  (top5Indices v).map fun i => ⟨i, scoreAt v i, round2 (scoreAt v i * 100)⟩

lemma argsortAsc_perm (v : List ℚ) : argsortAsc v ~ List.range v.length :=
  List.perm_insertionSort _ _

lemma argsortAsc_length (v : List ℚ) : (argsortAsc v).length = v.length := by
  simpa using (argsortAsc_perm v).length_eq

lemma argsortAsc_sorted (v : List ℚ) : (argsortAsc v).Pairwise (rankRel v) :=
  List.sorted_insertionSort _ _

lemma argsortAsc_nodup (v : List ℚ) : (argsortAsc v).Nodup :=
  (argsortAsc_perm v).nodup_iff.mpr (List.nodup_range _)

lemma top5Indices_pairwise (v : List ℚ) :
    (top5Indices v).Pairwise fun i j => rankRel v j i ∧ j ≠ i := by
  have hd : ((argsortAsc v).drop (v.length - 5)).Pairwise
      fun i j => rankRel v i j ∧ i ≠ j :=
    ((argsortAsc_sorted v).and (argsortAsc_nodup v)).sublist
      (List.drop_sublist _ _)
  exact List.pairwise_reverse.mpr (hd.imp fun h => h)

lemma top5Indices_length (v : List ℚ) :
    (top5Indices v).length = min 5 v.length := by
  simp only [top5Indices, List.length_reverse, List.length_drop, argsortAsc_length]
  omega

lemma topK_length (v : List ℚ) : (topK v).length = min 5 v.length := by
  simp [topK, top5Indices_length]

lemma topK_map_prob (v : List ℚ) :
    (topK v).map Prediction.probability = (top5Indices v).map (scoreAt v) := by
  simp [topK, List.map_map, Function.comp]

lemma topK_scores_pairwise (v : List ℚ) :
    ((topK v).map Prediction.probability).Pairwise (· ≥ ·) := by
  rw [topK_map_prob]
  refine List.pairwise_map.mpr ((top5Indices_pairwise v).imp ?_)
  rintro i j ⟨hr, _⟩
  rcases hr with h | ⟨e, _⟩
  · exact h.le
  · exact e.symm.ge

lemma map_scoreAt_range (v : List ℚ) :
    (List.range v.length).map (scoreAt v) = v := by
  apply List.ext_getElem
  · simp
  · intro i h1 h2
    simp [scoreAt, List.getD_eq_getElem?_getD, List.getElem?_eq_getElem h2]

lemma topK_scores_of_sorted (s : List ℚ) (hs : s.Pairwise (· ≥ ·))
    (hl : s.length ≤ 5) : (topK s).map Prediction.probability = s := by
  have h1 : top5Indices s = (argsortAsc s).reverse := by
    have : s.length - 5 = 0 := by omega
    simp [top5Indices, this]
  have hperm : ((argsortAsc s).reverse).map (scoreAt s) ~ s := by
    calc ((argsortAsc s).reverse).map (scoreAt s)
        ~ (argsortAsc s).map (scoreAt s) := ((argsortAsc s).reverse_perm).map _
      _ ~ (List.range s.length).map (scoreAt s) := (argsortAsc_perm s).map _
      _ = s := map_scoreAt_range s
  have hsorted : (((argsortAsc s).reverse).map (scoreAt s)).Pairwise (· ≥ ·) := by
    rw [← h1, ← topK_map_prob]
    exact topK_scores_pairwise s
  rw [topK_map_prob, h1]
  exact List.eq_of_perm_of_sorted hperm hsorted hs

/-! ### Image normalizer — app.py lines 113-131

`Image.open` / `convert` / `resize` are PIL collaborators.  A decoded image in
any PIL mode carries 8-bit samples, modelled as `Fin 256`; `convert('RGB')` is
embedded per PIL semantics for each mode (line 120-122); `resize((224, 224),
LANCZOS)` is an external codec whose kernel is a black box — theorems quantify
over any resize function producing a 224×224 RGB grid, which is PIL's contract
for this call.  `np.array(image, dtype=np.float32) / 255.0` and
`np.expand_dims(_, axis=0)` (lines 128-131) are embedded exactly. -/

/-- An RGB pixel grid (PIL image in mode RGB): 8-bit samples per channel.
`pixel y x` is the pixel at row `y`, column `x` (row-major, as `np.array`
reads a PIL image). -/
structure RGBImage where
  width : ℕ
  height : ℕ
  pixel : ℕ → ℕ → Fin 256 × Fin 256 × Fin 256

/-- A successfully decoded upload, in any of the PIL modes the gateway can
receive (app.py handles non-RGB modes by converting, line 120). -/
inductive DecodedImage where
  | rgb (w h : ℕ) (px : ℕ → ℕ → Fin 256 × Fin 256 × Fin 256)
  | gray (w h : ℕ) (px : ℕ → ℕ → Fin 256)
  | rgba (w h : ℕ) (px : ℕ → ℕ → Fin 256 × Fin 256 × Fin 256 × Fin 256)
  | palette (w h : ℕ) (idx : ℕ → ℕ → Fin 256)
      (pal : Fin 256 → Fin 256 × Fin 256 × Fin 256)

/-- `image.size` — PIL reports (width, height); read before conversion and
resize (app.py line 117). -/
def imageSize : DecodedImage → ℕ × ℕ
  | .rgb w h _ => (w, h)
  | .gray w h _ => (w, h)
  | .rgba w h _ => (w, h)
  | .palette w h _ _ => (w, h)

/-- `image.convert('RGB')` when the mode is not already RGB (app.py
lines 120-122): grayscale replicates the sample into all three channels,
RGBA drops the alpha channel, palette images look each index up in the
palette. -/
def convertRGB : DecodedImage → RGBImage
  | .rgb w h px => ⟨w, h, px⟩
  | .gray w h px => ⟨w, h, fun y x => (px y x, px y x, px y x)⟩
  | .rgba w h px => ⟨w, h, fun y x => ((px y x).1, (px y x).2.1, (px y x).2.2.1)⟩
  | .palette w h idx pal => ⟨w, h, fun y x => pal (idx y x)⟩

/-- One pixel of `np.array(image, dtype=np.float32) / 255.0`: the three
channel intensities scaled into `[0, 1]` (app.py line 128). -/
def pixelToChannels (p : Fin 256 × Fin 256 × Fin 256) : List ℚ :=
  [((p.1 : ℕ) : ℚ) / 255, ((p.2.1 : ℕ) : ℚ) / 255, ((p.2.2 : ℕ) : ℚ) / 255]

/-- The tensor `np.expand_dims(np.array(image, dtype=np.float32) / 255.0, 0)`
built from an RGB image (app.py lines 128-131): a singleton batch wrapping
the height × width × 3 grid of scaled intensities. -/
def toTensor (img : RGBImage) : List (List (List (List ℚ))) :=
  [(List.range img.height).map fun y =>
    (List.range img.width).map fun x => pixelToChannels (img.pixel y x)]

/-- The whole normalization step of the predict pipeline (app.py
lines 119-131): convert to RGB, resize through the black-box codec, scale
to `[0, 1]` and prepend the batch dimension. -/
def normalizeImage (resize : RGBImage → RGBImage) (d : DecodedImage) :
    List (List (List (List ℚ))) :=
  toTensor (resize (convertRGB d))

/-! ### Metrics collector — app.py lines 23-27 and 195-215 -/

/-- The mutable counters of the `metrics` dict (app.py lines 23-27).
`start_time` is wall-clock state not touched by any claim and is omitted. -/
structure Metrics where
  requests_total : ℕ
  errors_total : ℕ
deriving DecidableEq, Repr

/-- The metrics dict at process start (app.py lines 23-27). -/
def initMetrics : Metrics := ⟨0, 0⟩

/-- The body of the `/metrics` response (app.py lines 203-215); the two
uptime fields are wall-clock readings and are omitted. -/
structure MetricsResponse where
  service : String
  model : String
  model_version : String
  requests_total : ℕ
  errors_total : ℕ
  success_rate : ℚ
deriving Repr

/-- `GET /metrics` (app.py lines 195-215).  `success_rate` is
`round((requests_total - errors_total) / max(requests_total, 1) * 100, 2)`. -/
def get_metrics (m : Metrics) : MetricsResponse :=
  ⟨"ml-inference-gateway", "mobilenet", "1", m.requests_total, m.errors_total,
    round2 (((m.requests_total : ℚ) - (m.errors_total : ℚ))
      / ((max m.requests_total 1 : ℕ) : ℚ) * 100)⟩

/-! ### Backend configuration — app.py line 20 and the literal URLs in
`health` (line 52) and `model_info` (line 82)

The source consults no environment variable or configuration input: all three
backend URLs are string literals in the module.  The handlers are modelled as
functions of a configuration lookup (name ↦ value) to express what the claim
asserts; the source ignores that lookup. -/

/-- app.py line 20 — a module-level string literal. -/
def TF_SERVING_URL : String := "http://tf-serving:8501/v1/models/mobilenet:predict"

/-- The URL the predict handler posts to (app.py lines 144-148).  The source
uses the module constant and reads no configuration. -/
def predictBackendURL (_cfg : String → Option String) : String := TF_SERVING_URL

/-- The URL the health probe targets (app.py lines 51-54) — a literal,
independent of any configuration. -/
def healthProbeURL (_cfg : String → Option String) : String :=
  "http://tf-serving:8501/v1/models/mobilenet"

/-- The URL the metadata proxy targets (app.py lines 81-84) — a literal,
independent of any configuration. -/
def metadataURL (_cfg : String → Option String) : String :=
  "http://tf-serving:8501/v1/models/mobilenet/metadata"

/-- Modelled from the spec: "backend base URL is externally supplied
(environment/config)" — a gateway that directs its backend calls to the
configured endpoint, falling back to a default when none is configured.
Stated only to compare with the source's behaviour above. -/
def specConfiguredURL (cfg : String → Option String) (dflt : String) : String :=
  (cfg "TF_SERVING_URL").getD dflt

/-! ### Health aggregator — app.py lines 47-75 -/

/-- Outcome of `requests.get(<status URL>, timeout=5)` followed by
`.json()`: the probe either yields HTTP 200 with a JSON body (`ok`), an HTTP
response with another status code (`badStatus`), or raises — timeout,
connection refusal, or a 200 body that fails to parse as JSON — carrying
`str(e)` (`failure`). -/
inductive ProbeOutcome where
  | ok (modelStatus : String)
  | badStatus (code : ℕ)
  | failure (reason : String)

/-- The JSON body of a `/health` response together with its HTTP status
(app.py lines 55-75). -/
structure HealthResponse where
  status_code : ℕ
  status : String
  gateway : String
  tf_serving : String
  model : Option String
  error : Option String
deriving DecidableEq, Repr

/-- The `try` block of `health` (app.py lines 50-64): a non-200 status raises
`Exception(f"TF Serving returned status {code}")`; probe exceptions propagate. -/
def healthTry : ProbeOutcome → Except String String
  | .ok ms => .ok ms
  | .badStatus c => .error ("TF Serving returned status " ++ toString c)
  | .failure r => .error r

/-- `GET /health` (app.py lines 47-75): the `except` arm converts every
failure into a 503 "disconnected" verdict carrying `str(e)`. -/
def health (p : ProbeOutcome) : HealthResponse :=
  match healthTry p with
  | .ok ms => ⟨200, "healthy", "operational", "connected", some ms, none⟩
  | .error e => ⟨503, "unhealthy", "operational", "disconnected", none, some e⟩

/-! ### Model metadata proxy — app.py lines 77-87 -/

/-- Outcome of `requests.get(<metadata URL>, timeout=5).json()`: either a JSON
body (any HTTP status — the source never checks it) or an exception text. -/
inductive MetadataOutcome where
  | ok (body : String)
  | failure (reason : String)

/-- A `/model` response: the proxied JSON on success, or the HTTPException
the handler raises. -/
inductive ModelResponse where
  | ok (body : String)
  | failure (status : ℕ) (detail : String)
deriving DecidableEq, Repr

/-- `GET /model` (app.py lines 77-87).  Note: the failure arm raises
`HTTPException(500, ...)` without touching the metrics counters. -/
def model_info (m : Metrics) (o : MetadataOutcome) : ModelResponse × Metrics :=
  match o with
  | .ok b => (.ok b, m)
  | .failure r => (.failure 500 ("Failed to get model info: " ++ r), m)

/-! ### Predict pipeline — app.py lines 89-193 -/

/-- Python `s.startswith(pre)`, computed on the character lists. -/
def startswith (s pre : String) : Bool := pre.data.isPrefixOf s.data

/-- The truthiness test `not file.content_type or not
file.content_type.startswith('image/')` (app.py line 104): `None` and the
empty string are falsy. -/
def invalidContentType : Option String → Bool
  | none => true
  | some s => s = "" || !(startswith s "image/")

/-- How `f"{file.content_type}"` renders the declared content type. -/
def contentTypeStr : Option String → String
  | none => "None"
  | some s => s

/-- The uploaded file as the handler sees it. -/
structure PredictRequest where
  filename : String
  content_type : Option String

/-- Outcome of `Image.open(io.BytesIO(image_data))` (app.py line 114):
either a decoded image or the exception text of a decode failure. -/
inductive DecodeOutcome where
  | ok (img : DecodedImage)
  | failed (msg : String)

/-- The parse of the backend response body: either the `predictions` field
was found (a list of score vectors), or parsing / field access raised with
the given text. -/
inductive BackendBody where
  | preds (vss : List (List ℚ))
  | malformed (msg : String)

/-- Outcome of `requests.post(TF_SERVING_URL, json=payload, timeout=30)`
(app.py lines 144-148): an HTTP response (status, raw text, parsed body) or
a raised network error (timeout, connection refused). -/
inductive BackendOutcome where
  | reached (status : ℕ) (text : String) (body : BackendBody)
  | netFail (msg : String)

/-- The success payload of `/predict` (app.py lines 174-185). -/
structure PredictPayload where
  filename : String
  original_size : String
  inference_time_ms : ℚ
  predictions : List Prediction
  model_name : String
  model_version : String
deriving DecidableEq, Repr

/-- Result of the `try` block of `predict`: a success payload or an
HTTPException `(status, detail)` — 400 for the content-type check, 500 for
everything else. -/
inductive PredictOutcome where
  | ok (payload : PredictPayload)
  | err (status : ℕ) (detail : String)
deriving DecidableEq, Repr

/-- Whether the pipeline ended on an error path. -/
def PredictOutcome.isErr : PredictOutcome → Bool
  | .ok _ => false
  | .err _ _ => true

/-- `f"{w}x{h}"` for `original_size` (app.py line 177). -/
def sizeStr (wh : ℕ × ℕ) : String := toString wh.1 ++ "x" ++ toString wh.2

/-- The environment a single `/predict` request runs against: the codec's
resize behaviour, the decode outcome, the backend call outcome, and the
wall-clock inference time measured around the backend call. -/
structure PredictEnv where
  resize : RGBImage → RGBImage
  dec : DecodeOutcome
  backend : BackendOutcome
  inferMs : ℚ

/-- The `try` block of `predict` (app.py lines 102-185), stage by stage:
content-type validation, decode, normalization, backend call, status check,
extraction of `predictions[0]`, ranking, response assembly.  Every stage
failure short-circuits with the exception the source raises there
(an empty `predictions` array raises `IndexError("list index out of range")`
at `['predictions'][0]`). -/
def predictBody (resize : RGBImage → RGBImage) (req : PredictRequest)
    (dec : DecodeOutcome) (backend : BackendOutcome) (inferMs : ℚ) :
    PredictOutcome :=
  if invalidContentType req.content_type then
    .err 400 ("Invalid file type: " ++ contentTypeStr req.content_type
      ++ ". Must be an image (JPEG, PNG)")
  else
    match dec with
    | .failed msg => .err 500 msg
    | .ok img =>
      let _tensor := normalizeImage resize img
      match backend with
      | .netFail msg => .err 500 msg
      | .reached status text body =>
        if status ≠ 200 then
          .err 500 ("TF Serving error: " ++ text)
        else
          match body with
          | .malformed msg => .err 500 msg
          | .preds [] => .err 500 "list index out of range"
          | .preds (v :: _) =>
            .ok ⟨req.filename, sizeStr (imageSize img), round2 inferMs,
              topK v, "mobilenet", "1"⟩

/-- The HTTP response of `/predict`. -/
inductive PredictResponse where
  | success (payload : PredictPayload)
  | failure (status : ℕ) (detail : String)
deriving DecidableEq, Repr

/-- `POST /predict` (app.py lines 89-193): `requests_total` is incremented on
entry (line 100); both `except` arms increment `errors_total` once and
surface the HTTPException (lines 187-193). -/
def predict (m : Metrics) (req : PredictRequest) (env : PredictEnv) :
    PredictResponse × Metrics :=
  let m1 : Metrics := ⟨m.requests_total + 1, m.errors_total⟩
  match predictBody env.resize req env.dec env.backend env.inferMs with
  | .ok payload => (.success payload, m1)
  | .err s d => (.failure s d, ⟨m1.requests_total, m1.errors_total + 1⟩)

/-! ### Per-process event model

One process serves a sequence of endpoint invocations; the metrics dict is
the only state threaded through them.  `/` (app.py lines 29-45), `/health`
and `/metrics` never write to the dict; `/model` reads nothing and writes
nothing; `/predict` is the only writer. -/

/-- One inbound request, with the external outcomes it runs against. -/
inductive Event where
  | predictE (req : PredictRequest) (env : PredictEnv)
  | healthE (p : ProbeOutcome)
  | modelE (o : MetadataOutcome)
  | metricsE
  | rootE

/-- The metrics state after serving one request (only `/predict` and
`/model` handlers even receive the dict; the rest never name it). -/
def stepEvent (m : Metrics) : Event → Metrics
  | .predictE req env => (predict m req env).2
  | .healthE _ => m
  | .modelE o => (model_info m o).2
  | .metricsE => m
  | .rootE => m

/-- The metrics state after a whole request history, from process start. -/
def runEvents (es : List Event) : Metrics := es.foldl stepEvent initMetrics

/-! ### Helper lemmas -/

lemma abs_roundHalfEven_sub (q : ℚ) : |(roundHalfEven q : ℚ) - q| ≤ 1/2 := by
  have hfd : (⌊q⌋ : ℚ) = q - Int.fract q := by rw [Int.fract]; ring
  have hf0 : 0 ≤ Int.fract q := Int.fract_nonneg q
  have hf1 : Int.fract q < 1 := Int.fract_lt_one q
  unfold roundHalfEven
  split_ifs with h1 h2 h3 <;> rw [abs_le] <;> push_cast <;> rw [hfd] <;>
    constructor <;> linarith

lemma channel_bound (c : Fin 256) :
    0 ≤ ((c : ℕ) : ℚ) / 255 ∧ ((c : ℕ) : ℚ) / 255 ≤ 1 := by
  have hc : ((c : ℕ) : ℚ) ≤ 255 := by
    exact_mod_cast Nat.lt_succ_iff.mp c.isLt
  constructor
  · positivity
  · rw [div_le_one (by norm_num)]
    exact hc

lemma predict_requests_total (m : Metrics) (req : PredictRequest)
    (env : PredictEnv) :
    ((predict m req env).2).requests_total = m.requests_total + 1 := by
  cases h : predictBody env.resize req env.dec env.backend env.inferMs <;>
    simp [predict, h]

lemma predict_errors_total (m : Metrics) (req : PredictRequest)
    (env : PredictEnv) :
    ((predict m req env).2).errors_total
      = m.errors_total
        + (if (predictBody env.resize req env.dec env.backend env.inferMs).isErr
            then 1 else 0) := by
  cases h : predictBody env.resize req env.dec env.backend env.inferMs <;>
    simp [predict, h, PredictOutcome.isErr]

lemma stepEvent_modelE (m : Metrics) (o : MetadataOutcome) :
    stepEvent m (.modelE o) = m := by
  cases o <;> rfl

lemma stepEvent_invariant (m : Metrics) (e : Event)
    (h : m.errors_total ≤ m.requests_total) :
    (stepEvent m e).errors_total ≤ (stepEvent m e).requests_total := by
  cases e with
  | predictE req env =>
    show ((predict m req env).2).errors_total ≤ ((predict m req env).2).requests_total
    rw [predict_requests_total, predict_errors_total]
    split <;> omega
  | healthE p => exact h
  | modelE o => rw [stepEvent_modelE]; exact h
  | metricsE => exact h
  | rootE => exact h

lemma runEvents_invariant (es : List Event) :
    (runEvents es).errors_total ≤ (runEvents es).requests_total := by
  suffices hgen : ∀ m : Metrics, m.errors_total ≤ m.requests_total →
      ((es.foldl stepEvent m).errors_total ≤ (es.foldl stepEvent m).requests_total) from
    hgen initMetrics (Nat.le_refl 0)
  induction es with
  | nil => intro m h; exact h
  | cons e es ih => intro m h; exact ih _ (stepEvent_invariant m e h)

/-! ### Claims -/

/-- Claim C1, counterexample.  On the tied vector `[1, 1]` the ranked output
is class 1 first, then class 0 — the two tied entries appear in *descending*
class id order, refuting the claimed ascending tie-break: `argsort` puts ties
in ascending index order and the final `[::-1]` reverses them. -/
theorem topK_tie_ascending_counterexample :
    (topK [(1:ℚ), 1]).map Prediction.probability = [1, 1]
    ∧ (topK [(1:ℚ), 1]).map Prediction.class_id = [1, 0]
    ∧ ¬ (topK [(1:ℚ), 1]).Pairwise
        (fun a b => a.probability = b.probability → a.class_id < b.class_id) :=
  ⟨by decide, by decide, by decide⟩

/-- Claim C1, amended: when two entries of the prediction vector have equal
scores, the ranked output orders the tied entries by *descending* class id
(the higher index first); the output is still a deterministic function of the
input vector. -/
theorem topK_tie_descending (v : List ℚ) :
    (topK v).Pairwise
      fun a b => a.probability = b.probability → b.class_id < a.class_id := by
  unfold topK
  refine List.pairwise_map.mpr ((top5Indices_pairwise v).imp ?_)
  rintro i j ⟨hr, hne⟩ heq
  dsimp only at heq ⊢
  rcases hr with h | ⟨_, hle⟩
  · rw [heq] at h
    exact absurd h (lt_irrefl _)
  · exact lt_of_le_of_ne hle hne

/-- Claim C2: the ranked result has length `min 5 (length v)` — in particular
exactly 5 entries when the vector has at least 5 — and its scores are in
non-increasing order. -/
theorem topK_length_sorted (v : List ℚ) :
    (topK v).length = min 5 v.length
    ∧ (5 ≤ v.length → (topK v).length = 5)
    ∧ ((topK v).map Prediction.probability).Pairwise (· ≥ ·) := by
  refine ⟨topK_length v, fun h => ?_, topK_scores_pairwise v⟩
  rw [topK_length v]
  omega

/-- Claim C2, witness at a concrete vector of length 6. -/
theorem topK_length_sorted_witness :
    5 ≤ ([(9:ℚ), 7, 7, 3, 2, 1].length)
    ∧ (topK [(9:ℚ), 7, 7, 3, 2, 1]).length = 5 :=
  ⟨by decide, (topK_length_sorted [(9:ℚ), 7, 7, 3, 2, 1]).2.1 (by decide)⟩

/-- Claim C9: the ranker is idempotent — ranking the score sequence of an
already-ranked result reproduces the same sequence of scores. -/
theorem ranker_idempotent (v : List ℚ) :
    (topK ((topK v).map Prediction.probability)).map Prediction.probability
      = (topK v).map Prediction.probability :=
  topK_scores_of_sorted _ (topK_scores_pairwise v)
    (by simp [topK_length])

/-- Claim C3: for every successfully decoded image, of any mode and any
original resolution, and any behaviour of the (black-box) 224×224 resize,
the normalized tensor has shape `[1, 224, 224, 3]` and every element lies
in `[0, 1]`. -/
theorem normalize_shape_range (resize : RGBImage → RGBImage)
    (hres : ∀ img, (resize img).width = 224 ∧ (resize img).height = 224)
    (d : DecodedImage) :
    (normalizeImage resize d).length = 1
    ∧ ∀ plane ∈ normalizeImage resize d, plane.length = 224
        ∧ ∀ row ∈ plane, row.length = 224
          ∧ ∀ px ∈ row, px.length = 3
            ∧ ∀ c ∈ px, 0 ≤ c ∧ c ≤ 1 := by
  obtain ⟨hw, hh⟩ := hres (convertRGB d)
  refine ⟨rfl, ?_⟩
  intro plane hp
  rw [normalizeImage, toTensor] at hp
  rw [List.mem_singleton] at hp
  subst hp
  refine ⟨by simp [hh], ?_⟩
  intro row hr
  obtain ⟨y, _, rfl⟩ := List.mem_map.mp hr
  refine ⟨by simp [hw], ?_⟩
  intro px hx
  obtain ⟨x, _, rfl⟩ := List.mem_map.mp hx
  refine ⟨rfl, ?_⟩
  intro c hc
  rw [pixelToChannels] at hc
  simp only [List.mem_cons, List.not_mem_nil, or_false] at hc
  rcases hc with rfl | rfl | rfl
  · exact channel_bound _
  · exact channel_bound _
  · exact channel_bound _

/-- A concrete resize collaborator honouring the 224×224 output contract. -/
def constResize : RGBImage → RGBImage := fun _ => ⟨224, 224, fun _ _ => (0, 0, 0)⟩

/-- A concrete decoded upload: a 640×480 grayscale image. -/
def sampleDecoded : DecodedImage := .gray 640 480 fun _ _ => 7

/-- Claim C3, witness: the resize contract is satisfiable and the theorem
applies to a concrete grayscale image. -/
theorem normalize_shape_range_witness :
    (∀ img, (constResize img).width = 224 ∧ (constResize img).height = 224)
    ∧ (normalizeImage constResize sampleDecoded).length = 1 :=
  ⟨fun _ => ⟨rfl, rfl⟩,
    (normalize_shape_range constResize (fun _ => ⟨rfl, rfl⟩) sampleDecoded).1⟩

/-- Claim C4, counterexample.  At the counter state `requests_total = 3,
errors_total = 1` the reported `success_rate` is `66.67`, the two-decimal
rounding of `200/3` — not the exact value `(3 - 1) / max(3, 1) * 100` the
claim states. -/
theorem success_rate_rounding_counterexample :
    (get_metrics ⟨3, 1⟩).success_rate
      ≠ (((3:ℕ) : ℚ) - ((1:ℕ) : ℚ)) / ((max 3 1 : ℕ) : ℚ) * 100 := by
  norm_num [get_metrics, round2, roundHalfEven, Int.fract]

/-- Claim C4, amended: the reported `success_rate` is the claimed formula
`(requests_total - errors_total) / max(requests_total, 1) * 100` rounded to
two decimal places — hence within `1/200` of the exact value — and at the
initial counter state `requests_total = 0, errors_total = 0` it is exactly
`0` (no division by zero). -/
theorem success_rate_formula (req err : ℕ) :
    |(get_metrics ⟨req, err⟩).success_rate
        - ((req : ℚ) - (err : ℚ)) / ((max req 1 : ℕ) : ℚ) * 100| ≤ 1/200
    ∧ (get_metrics ⟨0, 0⟩).success_rate = 0 := by
  constructor
  · set x : ℚ := ((req : ℚ) - (err : ℚ)) / ((max req 1 : ℕ) : ℚ) * 100 with hx
    have h : |(roundHalfEven (x * 100) : ℚ) - x * 100| ≤ 1/2 :=
      abs_roundHalfEven_sub (x * 100)
    have hrw : (get_metrics ⟨req, err⟩).success_rate
        = (roundHalfEven (x * 100) : ℚ) / 100 := rfl
    rw [hrw, abs_le] at *
    obtain ⟨hl, hr⟩ := h
    constructor <;> linarith
  · norm_num [get_metrics, round2, roundHalfEven, Int.fract]

/-- Claim C5: a `/predict` request whose declared content type is absent,
empty, or not an `image/*` type is rejected with a 400 response carrying a
detail string, and the response does not depend on the decode, resize or
backend outcomes — no later pipeline stage can influence it. -/
theorem invalid_content_type_rejected (m : Metrics) (req : PredictRequest)
    (env env2 : PredictEnv)
    (h : invalidContentType req.content_type = true) :
    (predict m req env).1 = (predict m req env2).1
    ∧ (predict m req env).1
        = .failure 400 ("Invalid file type: " ++ contentTypeStr req.content_type
            ++ ". Must be an image (JPEG, PNG)") := by
  constructor <;> simp [predict, predictBody, h]

/-- A concrete non-image upload. -/
def plainTextReq : PredictRequest := ⟨"notes.txt", some "text/plain"⟩

/-- A concrete request environment (decode would fail, backend is down). -/
def sampleEnv : PredictEnv :=
  ⟨constResize, .failed "cannot identify image file",
    .netFail "connection refused", 12⟩

/-- Claim C5, witness: a `text/plain` upload is concretely rejected with 400. -/
theorem invalid_content_type_rejected_witness :
    invalidContentType plainTextReq.content_type = true
    ∧ (predict initMetrics plainTextReq sampleEnv).1
        = .failure 400 ("Invalid file type: " ++ contentTypeStr plainTextReq.content_type
            ++ ". Must be an image (JPEG, PNG)") :=
  ⟨by decide,
    (invalid_content_type_rejected initMetrics plainTextReq sampleEnv sampleEnv
      (by decide)).2⟩

/-- Claim C6, counterexample.  With a configuration that supplies the
endpoint `http://alt-backend:9000/predict`, the gateway still posts to the
hardcoded module constant, not to the configured endpoint — while the
spec-modelled gateway would use the configured one. -/
theorem backend_url_ignores_config :
    predictBackendURL (fun _ => some "http://alt-backend:9000/predict")
      = TF_SERVING_URL
    ∧ predictBackendURL (fun _ => some "http://alt-backend:9000/predict")
      ≠ "http://alt-backend:9000/predict"
    ∧ specConfiguredURL (fun _ => some "http://alt-backend:9000/predict")
        TF_SERVING_URL
      = "http://alt-backend:9000/predict" :=
  ⟨rfl, by decide, rfl⟩

/-- Claim C6, amended: the backend URLs used for predict, status and metadata
calls are hardcoded string constants; the gateway consults no configuration,
so every configured endpoint value yields the same fixed targets. -/
theorem backend_urls_hardcoded (cfg cfg2 : String → Option String) :
    predictBackendURL cfg = predictBackendURL cfg2
    ∧ predictBackendURL cfg = TF_SERVING_URL
    ∧ healthProbeURL cfg = "http://tf-serving:8501/v1/models/mobilenet"
    ∧ metadataURL cfg = "http://tf-serving:8501/v1/models/mobilenet/metadata" :=
  ⟨rfl, rfl, rfl, rfl⟩

/-- Claim C7: the health check returns a response for every probe outcome —
200 with `tf_serving = "connected"` exactly on a status-ok probe, and for
every failure (timeout, connection refusal, non-ok status, unparsable body)
a 503 with `tf_serving = "disconnected"` carrying the failure reason in the
body's error field. -/
theorem health_always_responds (ms : String) (c : ℕ) (r : String) :
    health (.ok ms)
      = ⟨200, "healthy", "operational", "connected", some ms, none⟩
    ∧ (∀ p : ProbeOutcome, (health p).status_code = 200
        ∨ ((health p).status_code = 503
            ∧ (health p).tf_serving = "disconnected"
            ∧ (health p).error ≠ none))
    ∧ health (.badStatus c)
      = ⟨503, "unhealthy", "operational", "disconnected", none,
          some ("TF Serving returned status " ++ toString c)⟩
    ∧ health (.failure r)
      = ⟨503, "unhealthy", "operational", "disconnected", none, some r⟩ := by
  refine ⟨rfl, ?_, rfl, rfl⟩
  intro p
  cases p <;> simp [health, healthTry]

/-- Claim C8, counterexample.  A `/model` request whose metadata probe fails
produces a 500 error response while leaving `errors_total` (and the whole
metrics state) untouched — an error outcome in the gateway that the metrics
collector never counts. -/
theorem model_info_error_uncounted :
    (model_info ⟨5, 1⟩ (.failure "connection refused")).1
      = .failure 500 ("Failed to get model info: " ++ "connection refused")
    ∧ (model_info ⟨5, 1⟩ (.failure "connection refused")).2 = ⟨5, 1⟩ :=
  ⟨rfl, rfl⟩

/-- Claim C8, amended: within the `/predict` pipeline every request that
terminates in an error outcome (validation, decode, backend, or internal)
increments `errors_total` exactly once and successful requests do not touch
it; but errors in the `/model` endpoint are converted to error responses
without being counted. -/
theorem predict_errors_counted_once (m : Metrics) (req : PredictRequest)
    (env : PredictEnv) (o : MetadataOutcome) :
    ((predict m req env).2).errors_total
      = m.errors_total
        + (if (predictBody env.resize req env.dec env.backend env.inferMs).isErr
            then 1 else 0)
    ∧ (model_info m o).2 = m :=
  ⟨predict_errors_total m req env, by cases o <;> rfl⟩

/-- Claim C10: at every reachable metrics state `errors_total ≤
requests_total`; `/predict` increments `requests_total` by exactly one and
`errors_total` by at most one (and only alongside that same request), and no
other endpoint mutates either counter. -/
theorem metrics_counters_invariant (es : List Event) (m : Metrics)
    (req : PredictRequest) (env : PredictEnv) (p : ProbeOutcome)
    (o : MetadataOutcome) :
    (runEvents es).errors_total ≤ (runEvents es).requests_total
    ∧ ((predict m req env).2).requests_total = m.requests_total + 1
    ∧ m.errors_total ≤ ((predict m req env).2).errors_total
    ∧ ((predict m req env).2).errors_total ≤ m.errors_total + 1
    ∧ stepEvent m (.healthE p) = m
    ∧ stepEvent m (.modelE o) = m
    ∧ stepEvent m .metricsE = m
    ∧ stepEvent m .rootE = m := by
  refine ⟨runEvents_invariant es, predict_requests_total m req env, ?_, ?_,
    rfl, stepEvent_modelE m o, rfl, rfl⟩
  · rw [predict_errors_total]
    split <;> omega
  · rw [predict_errors_total]
    split <;> omega

end Gateway
